import Mathlib

/-!
Shallow embedding of the Express service in `index.js` (the single app file of
the repository): Prometheus request-metrics middleware, the `/health`
aggregation handler, the `/redis-test` and `/mongo-test` demo handlers, and the
SIGTERM shutdown handler.  Wall-clock timestamps and the actual network I/O are
outside the embedding; dependency outcomes (a probe succeeding or throwing, a
client being connected or not) are passed in explicitly, and handlers are
functions from those outcomes and the relevant store state to the HTTP
response they produce and the successor state.
-/

/-- Label triple used by both Prometheus metrics
(`labelNames: ['method', 'route', 'status_code']`). -/
structure Labels where
  method : String
  route : String
  status_code : Nat
deriving DecidableEq

/-- An inbound HTTP request: its method and its request-target
(path plus optional `?query`). -/
structure HttpRequest where
  method : String
  url : String
deriving DecidableEq

/-- The path component of a request-target: everything before the first `?`.
This is what Express exposes as `req.path`. -/
def pathOfUrl (url : String) : String :=
  String.mk (url.data.takeWhile (fun c => c != '?'))

/-- Express `req.path` for a request. -/
def HttpRequest.path (r : HttpRequest) : String := pathOfUrl r.url

/-- The routes declared with `app.get` in the source. -/
def declaredRoutes : List String :=
  ["/metrics", "/", "/redis-test", "/mongo-test", "/health", "/crash"]

/-- The labels the metrics middleware records on response finish:
`{ method: req.method, route: req.path, status_code: res.statusCode }`. -/
def middlewareLabels (req : HttpRequest) (statusCode : Nat) : Labels :=
  { method := req.method, route := req.path, status_code := statusCode }

/-- A metric-recording action performed by the middleware. -/
inductive MetricEvent where
  | counterInc (l : Labels)
  | histObserve (l : Labels)
deriving DecidableEq

def MetricEvent.isCounterInc : MetricEvent → Bool
  | .counterInc _ => true
  | _ => false

def MetricEvent.isHistObserve : MetricEvent → Bool
  | .histObserve _ => true
  | _ => false

def MetricEvent.incLabel : MetricEvent → Option Labels
  | .counterInc l => some l
  | _ => none

def MetricEvent.obsLabel : MetricEvent → Option Labels
  | .histObserve l => some l
  | _ => none

/-- The metric-recording actions of the middleware's `res.on('finish', ...)`
listener, which fires once when the response completes with its final status
code: `httpRequestCount.inc({...})` then `end({...})` (the histogram
observation), both with `middlewareLabels`. -/
def finishEvents (req : HttpRequest) (statusCode : Nat) : List MetricEvent :=
  [ .counterInc (middlewareLabels req statusCode),
    .histObserve (middlewareLabels req statusCode) ]

/-- The finish listener's control flow, with the two metric calls as
exception-throwing functions (`Except`): the listener body is
`httpRequestCount.inc(...); end(...)` with no `try`/`catch`, so a throwing
increment aborts the listener before the observation and the error
propagates out of it. -/
def finishListener (inc obs : Labels → Except String Unit) (l : Labels) :
    Except String Unit :=
  match inc l with
  | .error e => .error e
  | .ok _ => obs l

/-- Outcome of one dependency liveness probe in `/health`:
`true` if the `ping` resolved, `false` if it threw (timeout, refused,
client not yet connected, `mongoClient` still `undefined`, ...). -/
structure HealthEnv where
  redisPingOk : Bool
  mongoPingOk : Bool
deriving DecidableEq

/-- The `services` object of the health report; fields start absent
(`services: {}`) and are set by the corresponding probe's branch. -/
structure HealthServices where
  redis : Option String
  mongodb : Option String
deriving DecidableEq

/-- The health report body (its wall-clock `timestamp` field is outside the
embedding). -/
structure HealthBody where
  status : String
  services : HealthServices
deriving DecidableEq

/-- The `/health` handler: starts from `status: 'OK', services: {}`, probes
Redis inside its own `try`/`catch`, then probes MongoDB inside a second,
separate `try`/`catch`; each `catch` sets that service's field to
`'disconnected'` and downgrades `status` to `'DEGRADED'`.  Returns the HTTP
status (`res.json` ⇒ 200) and the body. -/
def healthHandler (env : HealthEnv) : Nat × HealthBody :=
  let h0 : HealthBody := { status := "OK", services := ⟨none, none⟩ }
  let h1 : HealthBody :=
    if env.redisPingOk then
      { h0 with services := { h0.services with redis := some "connected" } }
    else
      { status := "DEGRADED",
        services := { h0.services with redis := some "disconnected" } }
  let h2 : HealthBody :=
    if env.mongoPingOk then
      { h1 with services := { h1.services with mongodb := some "connected" } }
    else
      { status := "DEGRADED",
        services := { h1.services with mongodb := some "disconnected" } }
  (200, h2)

/-- C1: every completed request yields exactly one counter increment and one
histogram observation, and both records carry the identical label triple
`{method := req.method, route := req.path, status_code := final status}`. -/
theorem finishEvents_one_inc_one_obs_matching_labels
    (req : HttpRequest) (statusCode : Nat) :
    ((finishEvents req statusCode).countP (·.isCounterInc)) = 1 ∧
    ((finishEvents req statusCode).countP (·.isHistObserve)) = 1 ∧
    (finishEvents req statusCode).filterMap MetricEvent.incLabel
      = [⟨req.method, req.path, statusCode⟩] ∧
    (finishEvents req statusCode).filterMap MetricEvent.obsLabel
      = [⟨req.method, req.path, statusCode⟩] := by
  refine ⟨rfl, rfl, rfl, rfl⟩

/-- C2: `/health` always answers HTTP 200, its `status` is `"DEGRADED"` iff at
least one service field is `"disconnected"`, and otherwise it is `"OK"`. -/
theorem healthHandler_status_200_degraded_iff (env : HealthEnv) :
    (healthHandler env).1 = 200 ∧
    ((healthHandler env).2.status = "DEGRADED" ↔
      ((healthHandler env).2.services.redis = some "disconnected" ∨
       (healthHandler env).2.services.mongodb = some "disconnected")) ∧
    ((healthHandler env).2.status = "DEGRADED" ∨
      (healthHandler env).2.status = "OK") := by
  rcases env with ⟨r, m⟩
  cases r <;> cases m <;> decide

/-- C5: the two health probes are independent: in every environment both
service fields get written, and each field's value is decided solely by its
own probe's outcome. -/
theorem healthHandler_probes_independent (env : HealthEnv) :
    (healthHandler env).2.services.redis
      = some (if env.redisPingOk then "connected" else "disconnected") ∧
    (healthHandler env).2.services.mongodb
      = some (if env.mongoPingOk then "connected" else "disconnected") := by
  rcases env with ⟨r, m⟩
  cases r <;> cases m <;> decide

/-- C3 counterexample: the middleware labels with `req.path`, not the matched
route pattern, so a request to an undeclared path (which finishes as a 404)
is labelled with that raw path, outside the declared-route set: label
cardinality is not bounded by the declared routes. -/
theorem middlewareLabels_route_escapes_declaredRoutes :
    (middlewareLabels ⟨"GET", "/no-such-route-1b2c"⟩ 404).route
      = "/no-such-route-1b2c" ∧
    "/no-such-route-1b2c" ∉ declaredRoutes := by
  decide

/-- C3 amended: the route label is `req.path`, the request-target with the
query string stripped (so `/mongo-test?x=1` is indeed labelled `/mongo-test`),
but it is the raw path, not the matched route pattern, and requests outside
the declared routes are labelled with their own path. -/
theorem middlewareLabels_route_eq_path (method url : String) (statusCode : Nat) :
    (middlewareLabels ⟨method, url⟩ statusCode).route = pathOfUrl url ∧
    pathOfUrl "/mongo-test?x=1" = "/mongo-test" ∧
    (middlewareLabels ⟨"GET", "/widget/12345"⟩ 404).route = "/widget/12345" ∧
    "/widget/12345" ∉ declaredRoutes := by
  exact ⟨rfl, by decide, by decide, by decide⟩

/-- A metrics-library call that always throws. -/
def incAlwaysThrows : Labels → Except String Unit := fun _ => .error "metrics failure"

/-- A metrics-library call that always succeeds. -/
def obsAlwaysOk : Labels → Except String Unit := fun _ => .ok ()

/-- C8 counterexample: the finish listener has no `try`/`catch`, so an error
thrown by the counter increment propagates out of the listener instead of
being swallowed. -/
theorem finishListener_propagates_inc_error :
    finishListener incAlwaysThrows obsAlwaysOk ⟨"GET", "/", 200⟩
      = .error "metrics failure" := rfl

/-- C8 amended: the middleware performs no error handling around the metric
calls: a throwing counter increment aborts the listener (skipping the
histogram observation) and its error propagates; when the increment succeeds
the listener's outcome is exactly the observation's.  (The listener runs on
`'finish'`, after the response has been sent, so the response path itself is
not altered — but metrics-library errors are not swallowed.) -/
theorem finishListener_no_error_handling
    (inc obs : Labels → Except String Unit) (l : Labels) (e : String) :
    (inc l = .error e → finishListener inc obs l = .error e) ∧
    (inc l = .ok () → finishListener inc obs l = obs l) := by
  constructor <;> intro h <;> simp [finishListener, h]

/-- Witness for the C8 amended theorem at concrete metric calls. -/
theorem finishListener_no_error_handling_witness :
    finishListener incAlwaysThrows obsAlwaysOk ⟨"GET", "/", 200⟩
      = .error "metrics failure" ∧
    finishListener (fun _ => .ok ()) obsAlwaysOk ⟨"GET", "/", 200⟩
      = obsAlwaysOk ⟨"GET", "/", 200⟩ :=
  ⟨(finishListener_no_error_handling incAlwaysThrows obsAlwaysOk
      ⟨"GET", "/", 200⟩ "metrics failure").1 rfl,
   (finishListener_no_error_handling (fun _ => .ok ()) obsAlwaysOk
      ⟨"GET", "/", 200⟩ "metrics failure").2 rfl⟩

/-- One step the SIGTERM handler can take, in program order. -/
inductive ShutdownAction where
  | stopAccepting
  | waitForDrain
  | closeRedis
  | closeMongo
  | logCloseError (who : String)
  | exitProcess (code : Nat)
deriving DecidableEq

def ShutdownAction.isExit : ShutdownAction → Bool
  | .exitProcess _ => true
  | _ => false

/-- Failure behaviour of the world during shutdown: whether each close call
throws, and whether `mongoClient` was ever assigned (it stays `undefined` when
the startup connect failed before reaching MongoDB). -/
structure ShutdownEnv where
  redisQuitFails : Bool
  mongoCloseFails : Bool
  mongoClientExists : Bool
deriving DecidableEq

/-- The `process.on('SIGTERM')` handler as the ordered list of actions it
performs: `server.close(cb)` only *initiates* the listener close (the drain
callback `cb` merely logs and is never awaited), then `redisClient.quit()` in
a `try`/`catch` that logs, then — only if `mongoClient` is set —
`mongoClient.close()` in its own `try`/`catch`, then `process.exit(0)`.
No action waits for in-flight requests to drain. -/
def sigtermHandler (env : ShutdownEnv) : List ShutdownAction :=
  [ShutdownAction.stopAccepting]
    ++ ([ShutdownAction.closeRedis]
        ++ (if env.redisQuitFails then [ShutdownAction.logCloseError "redis"] else []))
    ++ (if env.mongoClientExists then
          [ShutdownAction.closeMongo]
            ++ (if env.mongoCloseFails then [ShutdownAction.logCloseError "mongo"] else [])
        else [])
    ++ [ShutdownAction.exitProcess 0]

/-- C9 counterexample: in the ordinary shutdown environment the handler's
trace goes straight from stopping the listener to closing the dependencies
and exiting — there is no wait for in-flight requests to drain before the
dependency handles are closed. -/
theorem sigtermHandler_does_not_wait_for_drain :
    sigtermHandler ⟨false, false, true⟩
      = [ShutdownAction.stopAccepting, ShutdownAction.closeRedis,
         ShutdownAction.closeMongo, ShutdownAction.exitProcess 0] ∧
    ShutdownAction.waitForDrain ∉ sigtermHandler ⟨false, false, true⟩ := by
  decide

/-- C9 amended: on SIGTERM the handler first stops accepting connections,
closes Redis and then MongoDB in sequence (a close error is logged and does
not abort the remaining steps), and always ends with exactly one
`process.exit(0)` — but it never waits for in-flight requests to drain. -/
theorem sigtermHandler_order_and_exit (env : ShutdownEnv) :
    (sigtermHandler env).head? = some ShutdownAction.stopAccepting ∧
    (sigtermHandler env).getLast? = some (ShutdownAction.exitProcess 0) ∧
    (sigtermHandler env).countP (·.isExit) = 1 ∧
    ShutdownAction.closeRedis ∈ sigtermHandler env ∧
    ShutdownAction.waitForDrain ∉ sigtermHandler env ∧
    (env.redisQuitFails = true →
      ShutdownAction.logCloseError "redis" ∈ sigtermHandler env) ∧
    (env.mongoClientExists = true →
      ShutdownAction.closeMongo ∈ sigtermHandler env ∧
      (sigtermHandler env).indexOf ShutdownAction.closeRedis
        < (sigtermHandler env).indexOf ShutdownAction.closeMongo) := by
  rcases env with ⟨r, m, e⟩
  cases r <;> cases m <;> cases e <;> decide

/-- Witness for the C9 amended theorem: shutdown environment in which both
closes fail and `mongoClient` exists. -/
theorem sigtermHandler_order_and_exit_witness :
    ShutdownAction.logCloseError "redis" ∈ sigtermHandler ⟨true, true, true⟩ ∧
    ShutdownAction.closeMongo ∈ sigtermHandler ⟨true, true, true⟩ ∧
    (sigtermHandler ⟨true, true, true⟩).getLast?
      = some (ShutdownAction.exitProcess 0) :=
  ⟨(sigtermHandler_order_and_exit ⟨true, true, true⟩).2.2.2.2.2.1 rfl,
   ((sigtermHandler_order_and_exit ⟨true, true, true⟩).2.2.2.2.2.2 rfl).1,
   (sigtermHandler_order_and_exit ⟨true, true, true⟩).2.1⟩

/-- A JS number as the `/redis-test` handler manipulates one:
`none` models `NaN`.  The visit counter stays far below 2^53, so exact
integer arithmetic is a faithful model of the float arithmetic used. -/
abbrev JSNum := Option Int

/-- `NaN + 1 = NaN`; otherwise ordinary addition of one. -/
def jsAddOne : JSNum → JSNum
  | none => none
  | some i => some (i + 1)

/-- ASCII decimal digit value of a character, if it is one. -/
def digitVal? (c : Char) : Option Nat :=
  if 48 ≤ c.toNat ∧ c.toNat ≤ 57 then some (c.toNat - 48) else none

/-- Fold the longest leading run of decimal digits onto an accumulator,
stopping at the first non-digit (as `parseInt` does). -/
def parseDigitsAcc : List Char → Nat → Nat
  | [], acc => acc
  | c :: cs, acc =>
    match digitVal? c with
    | some d => parseDigitsAcc cs (10 * acc + d)
    | none => acc

/-- Value of a digit run that must start with a digit: `none` when the first
character is not a decimal digit (`parseInt` yields `NaN` then). -/
def leadingNatVal : List Char → Option Nat
  | [] => none
  | c :: cs =>
    match digitVal? c with
    | some d => some (parseDigitsAcc cs d)
    | none => none

/-- ASCII whitespace skipped by `parseInt` (the further Unicode space code
points of the JS grammar never occur in the values this service stores). -/
def isJsSpace (c : Char) : Bool :=
  c == ' ' || c == '\t' || c == '\n' || c == '\r'

/-- JS `parseInt(s)` on the decimal grammar: skip leading whitespace, an
optional sign, then the longest run of decimal digits; `none` models `NaN`.
(The hexadecimal `0x` literal form is not modelled: the handler only ever
writes back decimal numerals or `"NaN"`.) -/
def jsParseIntChars (cs : List Char) : Option Int :=
  match cs.dropWhile isJsSpace with
  | [] => none
  | c :: rest =>
    if c = '-' then (leadingNatVal rest).map (fun n => -(n : Int))
    else if c = '+' then (leadingNatVal rest).map (fun n => (n : Int))
    else (leadingNatVal (c :: rest)).map (fun n => (n : Int))

def jsParseInt (s : String) : Option Int := jsParseIntChars s.data

/-- Little-endian decimal digit values of `n`, with explicit fuel (`n` itself
is always enough fuel, since a number has no more decimal digits than its own
magnitude). -/
def natDigitsRevAux : Nat → Nat → List Nat
  | 0, _ => []
  | fuel + 1, n => if n = 0 then [] else n % 10 :: natDigitsRevAux fuel (n / 10)

/-- Decimal digit characters of `n`, most significant first: how JS
`Number#toString` renders a nonnegative integer. -/
def natDecimalChars (n : Nat) : List Char :=
  if n = 0 then ['0'] else ((natDigitsRevAux n n).reverse.map Nat.digitChar)

/-- JS string conversion of a number as `redisClient.set` applies it to its
value argument: `NaN` prints as `"NaN"`, integers in decimal. -/
def jsNumToString : JSNum → String
  | none => "NaN"
  | some i =>
    if i < 0 then String.mk ('-' :: natDecimalChars i.natAbs)
    else String.mk (natDecimalChars i.toNat)

/-- The Redis client as a request handler observes it: never connected yet
(commands throw a client-is-closed error), connected with the current value
at the fixed key `'visit_count'` (`none` = key absent), or failing with some
connection error. -/
inductive RedisConn where
  | notYetConnected
  | connected (visitCount : Option String)
  | broken (msg : String)
deriving DecidableEq

/-- The `{ error, details }` body of a 500 response. -/
structure ErrorBody where
  error : String
  details : String
deriving DecidableEq

/-- Body of a `/redis-test` response (wall-clock `timestamp` field outside
the embedding). -/
inductive RedisTestBody where
  | ok (message : String) (visit_count : JSNum)
  | err (body : ErrorBody)
deriving DecidableEq

/-- The `/redis-test` handler: `get('visit_count')` (when the client is
unusable the command throws and the `catch` answers
`500 { error, details }`), `|| 0` turns an absent key or empty string into
the number `0` (which `parseInt` coerces back to `"0"`), then
`parseInt(...) + 1`, `set` of the new value (stringified), and a 200 body
with the new count. -/
def redisTestHandler : RedisConn → (Nat × RedisTestBody) × RedisConn
  | .notYetConnected =>
      ((500, .err ⟨"Redis connection failed", "The client is closed"⟩),
        .notYetConnected)
  | .broken msg =>
      ((500, .err ⟨"Redis connection failed", msg⟩), .broken msg)
  | .connected v =>
      let currentCount : String :=
        match v with
        | none => "0"
        | some s => if s = "" then "0" else s
      let newCount : JSNum := jsAddOne (jsParseInt currentCount)
      ((200, .ok "Redis test successful" newCount),
        .connected (some (jsNumToString newCount)))

/-- `N` sequential `/redis-test` calls: the list of responses and the final
client state. -/
def runRedisTest : Nat → RedisConn → List (Nat × RedisTestBody) × RedisConn
  | 0, st => ([], st)
  | n + 1, st =>
      ((redisTestHandler st).1 :: (runRedisTest n (redisTestHandler st).2).1,
        (runRedisTest n (redisTestHandler st).2).2)

/-- One document of the `visits` collection: `{ timestamp, ip, userAgent }`
(the timestamp is passed in as an abstract clock value; `req.get` may yield
no header, hence the `Option`). -/
structure Visit where
  timestamp : Nat
  ip : String
  userAgent : Option String
deriving DecidableEq

/-- The MongoDB handle as a request handler observes it: `db` still
`undefined` (property access throws), connected with the current contents of
the `visits` collection, or failing with some connection error. -/
inductive MongoConn where
  | notYetConnected
  | connected (visits : List Visit)
  | broken (msg : String)
deriving DecidableEq

/-- Body of a `/mongo-test` response; the inserted id is modelled as the
document's index in the collection. -/
inductive MongoTestBody where
  | ok (message : String) (insertedId : Nat) (total_visits : Nat)
  | err (body : ErrorBody)
deriving DecidableEq

/-- The `/mongo-test` handler: build the visit document, `insertOne` it into
the fixed `visits` collection, `countDocuments()` on that collection, and
answer 200 with the inserted id and the count; any throw inside the `try`
(including the property access on an `undefined` `db`) is answered with
`500 { error, details }`. -/
def mongoTestHandler (now : Nat) (ip : String) (userAgent : Option String) :
    MongoConn → (Nat × MongoTestBody) × MongoConn
  | .notYetConnected =>
      ((500, .err ⟨"MongoDB connection failed",
          "Cannot read properties of undefined (reading collection)"⟩),
        .notYetConnected)
  | .broken msg =>
      ((500, .err ⟨"MongoDB connection failed", msg⟩), .broken msg)
  | .connected visits =>
      ((200, .ok "MongoDB test successful" visits.length
          (visits ++ [Visit.mk now ip userAgent]).length),
        .connected (visits ++ [Visit.mk now ip userAgent]))

def RedisConn.isConnected : RedisConn → Bool
  | .connected _ => true
  | _ => false

def MongoConn.isConnected : MongoConn → Bool
  | .connected _ => true
  | _ => false

/-- Every digit value emitted by the fuelled digit expansion is below 10. -/
theorem natDigitsRevAux_lt (fuel : Nat) :
    ∀ n d, d ∈ natDigitsRevAux fuel n → d < 10 := by
  induction fuel with
  | zero => intro n d h; simp [natDigitsRevAux] at h
  | succ f ih =>
    intro n d h
    by_cases h0 : n = 0
    · simp [natDigitsRevAux, h0] at h
    · simp only [natDigitsRevAux, if_neg h0, List.mem_cons] at h
      rcases h with h | h
      · omega
      · exact ih _ _ h

/-- Little-endian decimal value of a digit list. -/
def littleVal : List Nat → Nat
  | [] => 0
  | d :: ds => d + 10 * littleVal ds

/-- With enough fuel the digit expansion evaluates back to the number. -/
theorem littleVal_natDigitsRevAux (fuel : Nat) :
    ∀ n, n ≤ fuel → littleVal (natDigitsRevAux fuel n) = n := by
  induction fuel with
  | zero => intro n h; interval_cases n; simp [natDigitsRevAux, littleVal]
  | succ f ih =>
    intro n h
    by_cases h0 : n = 0
    · simp [natDigitsRevAux, h0, littleVal]
    · have hle : n / 10 ≤ f := by omega
      simp only [natDigitsRevAux, if_neg h0, littleVal, ih _ hle]
      omega

/-- Parsing a run of digit characters folds up their values. -/
theorem parseDigitsAcc_map_digitChar (M : List Nat) (hM : ∀ d ∈ M, d < 10) :
    ∀ acc, parseDigitsAcc (M.map Nat.digitChar) acc
      = M.foldl (fun a d => 10 * a + d) acc := by
  induction M with
  | nil => intro acc; rfl
  | cons d M ih =>
    intro acc
    have hd : d < 10 := hM d (by simp)
    have hdv : digitVal? (Nat.digitChar d) = some d := by
      interval_cases d <;> decide
    simp only [List.map_cons, parseDigitsAcc, hdv, List.foldl_cons]
    exact ih (fun x hx => hM x (by simp [hx])) _

/-- Folding big-endian over the reverse of a little-endian digit list. -/
theorem foldl_reverse_littleVal (L : List Nat) :
    ∀ acc, L.reverse.foldl (fun a d => 10 * a + d) acc
      = acc * 10 ^ L.length + littleVal L := by
  induction L with
  | nil => intro acc; simp [littleVal]
  | cons d L ih =>
    intro acc
    simp only [List.reverse_cons, List.foldl_append, List.foldl_cons,
      List.foldl_nil, List.length_cons, littleVal, ih]
    ring

/-- `parseInt` on a nonempty run of digit characters returns its value. -/
theorem jsParseIntChars_map_digitChar (d : Nat) (M : List Nat)
    (hM : ∀ x ∈ d :: M, x < 10) :
    jsParseIntChars ((d :: M).map Nat.digitChar)
      = some (((d :: M).foldl (fun a x => 10 * a + x) 0 : Nat) : Int) := by
  have hd : d < 10 := hM d (by simp)
  have h1 : isJsSpace (Nat.digitChar d) = false := by interval_cases d <;> decide
  have h2 : ¬(Nat.digitChar d = '-') := by interval_cases d <;> decide
  have h3 : ¬(Nat.digitChar d = '+') := by interval_cases d <;> decide
  have hdv : digitVal? (Nat.digitChar d) = some d := by interval_cases d <;> decide
  simp only [List.map_cons, jsParseIntChars, List.dropWhile_cons, h1,
    Bool.false_eq_true, if_false, if_neg h2, if_neg h3, leadingNatVal, hdv,
    parseDigitsAcc_map_digitChar M (fun x hx => hM x (by simp [hx])),
    Option.map_some, List.foldl_cons]
  norm_num

/-- `parseInt` is a left inverse of decimal printing of naturals. -/
theorem jsParseInt_mk_natDecimalChars (n : Nat) :
    jsParseInt (String.mk (natDecimalChars n)) = some (n : Int) := by
  by_cases h0 : n = 0
  · subst h0; decide
  · rcases hχ : natDigitsRevAux n n with _ | ⟨a, L⟩
    · rcases n with _ | m
      · exact absurd rfl h0
      · simp [natDigitsRevAux] at hχ
    · have hlt : ∀ x ∈ natDigitsRevAux n n, x < 10 := natDigitsRevAux_lt n n
      have hval : littleVal (natDigitsRevAux n n) = n :=
        littleVal_natDigitsRevAux n n le_rfl
      rcases hrev : (natDigitsRevAux n n).reverse with _ | ⟨d, M⟩
      · rw [List.reverse_eq_nil_iff] at hrev
        rw [hrev] at hχ; exact absurd hχ (by simp)
      · have hM : ∀ x ∈ d :: M, x < 10 := by
          intro x hx
          apply hlt
          rw [← List.mem_reverse, hrev]
          exact hx
        have hstep := jsParseIntChars_map_digitChar d M hM
        have hfold : (d :: M).foldl (fun a x => 10 * a + x) 0 = n := by
          have := foldl_reverse_littleVal (natDigitsRevAux n n) 0
          rw [hrev] at this
          rw [this, hval]
          simp
        show jsParseIntChars (String.mk (natDecimalChars n)).data = some (n : Int)
        have hdata : (String.mk (natDecimalChars n)).data = natDecimalChars n := rfl
        rw [hdata, natDecimalChars, if_neg h0, hrev, hstep, hfold]

/-- Decimal printing never yields the empty character list. -/
theorem natDecimalChars_ne_nil (n : Nat) : natDecimalChars n ≠ [] := by
  rcases n with _ | m
  · simp [natDecimalChars]
  · simp [natDecimalChars, natDigitsRevAux]

/-- A string built from a nonempty character list is not the empty string. -/
theorem mkString_ne_empty {l : List Char} (h : l ≠ []) : String.mk l ≠ "" := by
  intro hc
  exact h (congrArg String.data hc)

/-- Stringifying a nonnegative number prints it in decimal. -/
theorem jsNumToString_natCast (n : Nat) :
    jsNumToString (some (n : Int)) = String.mk (natDecimalChars n) := by
  simp [jsNumToString]

/-- One `/redis-test` call on a connected client whose key holds the decimal
numeral of `n` answers 200 with count `n + 1` and stores the numeral of
`n + 1`. -/
theorem redisTestHandler_decimal (n : Nat) :
    redisTestHandler (RedisConn.connected (some (String.mk (natDecimalChars n))))
      = ((200, RedisTestBody.ok "Redis test successful" (some ((n : Int) + 1))),
        RedisConn.connected (some (String.mk (natDecimalChars (n + 1))))) := by
  have hne : String.mk (natDecimalChars n) ≠ "" :=
    mkString_ne_empty (natDecimalChars_ne_nil n)
  have hcast : ((n : Int) + 1) = ((n + 1 : Nat) : Int) := by push_cast; ring
  simp only [redisTestHandler, if_neg hne, jsParseInt_mk_natDecimalChars, jsAddOne,
    hcast, jsNumToString_natCast]

/-- One `/redis-test` call on a connected client with the key absent answers
200 with count 1 and stores the numeral `"1"`. -/
theorem redisTestHandler_clean :
    redisTestHandler (RedisConn.connected none)
      = ((200, RedisTestBody.ok "Redis test successful" (some 1)),
        RedisConn.connected (some (String.mk (natDecimalChars 1)))) := by
  decide

/-- Sequential `/redis-test` calls starting from the decimal numeral of `n`
count `n+1, n+2, ...`. -/
theorem runRedisTest_decimal (N : Nat) :
    ∀ n, (runRedisTest N
        (RedisConn.connected (some (String.mk (natDecimalChars n))))).1
      = (List.range N).map (fun k : Nat =>
          (200, RedisTestBody.ok "Redis test successful" (some ((n : Int) + (k : Int) + 1)))) := by
  induction N with
  | zero => intro n; simp [runRedisTest]
  | succ M ih =>
    intro n
    simp only [runRedisTest, redisTestHandler_decimal n, ih (n + 1),
      List.range_succ_eq_map, List.map_cons, List.map_map]
    refine List.cons_eq_cons.mpr ⟨by norm_num, ?_⟩
    refine List.map_congr_left ?_
    intro k _
    simp only [Function.comp_apply]
    have : ((n + 1 : Nat) : Int) + (k : Int) + 1
        = ((n : Int) + ((Nat.succ k : Nat) : Int) + 1) := by push_cast; ring
    rw [this]

/-- C4: from a clean state (key absent), `N` sequential successful
`/redis-test` calls answer 200 with `visit_count` values `1, 2, ..., N` in
order. -/
theorem redisTest_clean_counts_up (N : Nat) :
    (runRedisTest N (RedisConn.connected none)).1
      = (List.range N).map (fun k : Nat =>
          (200, RedisTestBody.ok "Redis test successful" (some ((k : Int) + 1)))) := by
  cases N with
  | zero => rfl
  | succ M =>
    simp only [runRedisTest, redisTestHandler_clean, runRedisTest_decimal M 1,
      List.range_succ_eq_map, List.map_cons, List.map_map]
    refine List.cons_eq_cons.mpr ⟨by norm_num, ?_⟩
    refine List.map_congr_left ?_
    intro k _
    simp only [Function.comp_apply]
    have : ((1 : Nat) : Int) + (k : Int) + 1
        = (((Nat.succ k : Nat) : Int) + 1) := by push_cast; ring
    rw [this]

/-- C6: whenever the dependency is not in a usable connected state — whether
the connection was never established or was lost, identically — the
`/redis-test` and `/mongo-test` handlers answer HTTP 500 with an
`{ error, details }` body and leave the state untouched (the `catch` turns
the throw into a response instead of crashing the process). -/
theorem dependencyFailure_500_error_details (rc : RedisConn) (mc : MongoConn)
    (now : Nat) (ip : String) (ua : Option String)
    (hr : rc.isConnected = false) (hm : mc.isConnected = false) :
    ((redisTestHandler rc).1.1 = 500 ∧
      (∃ b : ErrorBody, (redisTestHandler rc).1.2 = RedisTestBody.err b) ∧
      (redisTestHandler rc).2 = rc) ∧
    ((mongoTestHandler now ip ua mc).1.1 = 500 ∧
      (∃ b : ErrorBody, (mongoTestHandler now ip ua mc).1.2 = MongoTestBody.err b) ∧
      (mongoTestHandler now ip ua mc).2 = mc) := by
  cases rc <;> cases mc <;>
    simp_all [redisTestHandler, mongoTestHandler,
      RedisConn.isConnected, MongoConn.isConnected]

/-- Witness for the C6 theorem: a never-connected Redis client and a broken
MongoDB connection. -/
theorem dependencyFailure_500_error_details_witness :
    (redisTestHandler RedisConn.notYetConnected).1.1 = 500 ∧
    (mongoTestHandler 0 "203.0.113.7" none (MongoConn.broken "connection lost")).1.1
      = 500 :=
  ⟨(dependencyFailure_500_error_details RedisConn.notYetConnected
      (MongoConn.broken "connection lost") 0 "203.0.113.7" none rfl rfl).1.1,
   (dependencyFailure_500_error_details RedisConn.notYetConnected
      (MongoConn.broken "connection lost") 0 "203.0.113.7" none rfl rfl).2.1⟩

/-- C7: a successful `/mongo-test` call appends exactly the one document
`{timestamp, ip, userAgent}` to the `visits` collection, and answers 200
carrying the inserted document's id together with a `total_visits` equal to
the collection's prior document count plus one. -/
theorem mongoTest_insert_one_count_plus_one (now : Nat) (ip : String)
    (ua : Option String) (visits : List Visit) :
    mongoTestHandler now ip ua (MongoConn.connected visits)
      = ((200, MongoTestBody.ok "MongoDB test successful" visits.length
            (visits.length + 1)),
        MongoConn.connected (visits ++ [Visit.mk now ip ua])) := by
  simp [mongoTestHandler]

/-- C10 counterexample: the empty string stored at the key also fails
`parseInt` (`parseInt("")` is `NaN`), yet the handler does not answer `NaN`:
`'' || 0` replaces it by the number `0`, so the response carries
`visit_count = 1`. -/
theorem redisTest_empty_string_not_nan :
    jsParseInt "" = none ∧
    redisTestHandler (RedisConn.connected (some ""))
      = ((200, RedisTestBody.ok "Redis test successful" (some 1)),
        RedisConn.connected (some "1")) := by
  decide

/-- C10 amended: for a *nonempty* stored string that does not parse as an
integer, `/redis-test` still answers HTTP 200, its `visit_count` is `NaN`
(`parseInt` of the stored string, plus one), and the stringified `NaN` is
written back to the key. -/
theorem redisTest_corrupt_value_nan (s : String) (h1 : s ≠ "")
    (h2 : jsParseInt s = none) :
    redisTestHandler (RedisConn.connected (some s))
      = ((200, RedisTestBody.ok "Redis test successful" none),
        RedisConn.connected (some "NaN")) := by
  simp only [redisTestHandler, if_neg h1, h2, jsAddOne, jsNumToString]

/-- Witness for the C10 amended theorem at the stored string `"abc"`. -/
theorem redisTest_corrupt_value_nan_witness :
    redisTestHandler (RedisConn.connected (some "abc"))
      = ((200, RedisTestBody.ok "Redis test successful" none),
        RedisConn.connected (some "NaN")) :=
  redisTest_corrupt_value_nan "abc" (by decide) (by decide)
